import Mathlib

/-!
Verification of the barotropy example driver (`examples/realdata_djf_ics.py`)
against its natural-language specification.

The driver script is embedded shallowly: time stamps and field values are
rationals (`ℚ`), Python `timedelta` differences are total elapsed seconds,
and the stateful integration loop is explicit state passing.  The numerical
core that the driver imports (the `barotropy` tendency components and the
`sympl` Leapfrog stepper) is not part of the visible sources; where a claim
depends on it, the corresponding definition is modelled from the spec and
says so in its doc comment.
-/

namespace Barotropy

/-! ## Driver configuration (adjustable variables block of the script) -/

/-- The configured timestep `dt = timedelta(minutes=15)`, in seconds. -/
def dtStep : ℚ := 15 * 60

/-- The configured netCDF write frequency, `ncout_freq = 6` (hours). -/
def ncoutFreq : ℕ := 6

/-- The configured `diff_on = True` flag. -/
def diffOnConfig : Bool := true

/-- The configured `forcing_on = True` flag. -/
def forcingOnConfig : Bool := true

/-- The configured `append_nc = False` flag. -/
def appendNcConfig : Bool := false

/-! ## Prognostic component list construction

The driver builds `prognostics = [dynamics]`, then appends the diffusion
component when `diff_on` holds, and the forcing followed by the damping
component when `forcing_on` holds. -/

/-- The four tendency components the driver can install (each wrapped in a
`TendencyInDiagnosticsWrapper` in the script; the wrapper does not change
which component is present). -/
inductive Prog
  | dynamics
  | diffusion
  | forcing
  | damping
deriving DecidableEq

/-- The prognostics list as assembled by the driver: dynamics always, then
diffusion if `diff_on`, then forcing and damping together if `forcing_on`. -/
def buildPrognostics (diff_on forcing_on : Bool) : List Prog :=
  [Prog.dynamics]
    ++ (if diff_on then [Prog.diffusion] else [])
    ++ (if forcing_on then [Prog.forcing, Prog.damping] else [])

/-! ## Monitor setup sequence

In program order the driver (a) constructs the `PlotFunctionMonitor`,
(b) removes the netCDF output file when it exists and `append_nc` is off,
(c) constructs the `NetCDFMonitor`. -/

/-- The observable actions of the monitor-setup section of the driver. -/
inductive SetupEvent
  | constructPlotMonitor
  | removeFile
  | constructNCMonitor
deriving DecidableEq

/-- The monitor-setup section as a trace of events, in the script's program
order, as a function of whether the output file exists and of `append_nc`. -/
def monitorSetup (fileExists append_nc : Bool) : List SetupEvent :=
  [SetupEvent.constructPlotMonitor]
    ++ (if fileExists && !append_nc then [SetupEvent.removeFile] else [])
    ++ [SetupEvent.constructNCMonitor]

/-! ## Output cadence

Each iteration the driver computes
`fhour = (state['time'] - idate).days*24 + (state['time'] - idate).seconds/3600`
and stores to netCDF iff `fhour % ncout_freq == 0`.  A Python `timedelta`
normalises to `days = total // 86400` and `seconds = total % 86400`; `/` is
true division, and `%` on floats is floor-based modulo.  Elapsed time is
represented exactly as total seconds (`ℕ`), and the float arithmetic of the
check as exact rational arithmetic. -/

/-- `fhour`: elapsed hours computed as whole days times 24 plus remaining
seconds over 3600, from a `timedelta` holding `deltaSecs` total seconds. -/
def elapsedHours (deltaSecs : ℕ) : ℚ :=
  ((deltaSecs / 86400 : ℕ) : ℚ) * 24 + ((deltaSecs % 86400 : ℕ) : ℚ) / 3600

/-- Python's `%` operator on numbers: floor-based modulo. -/
def pyMod (a b : ℚ) : ℚ := a - b * (⌊a / b⌋ : ℤ)

/-- The driver's store decision: `fhour % ncout_freq == 0`.  A `false` result
skips the store silently (the `if` has no `else`); no error is possible. -/
def storesThisStep (deltaSecs : ℕ) (freq : ℕ) : Bool :=
  decide (pyMod (elapsedHours deltaSecs) (freq : ℚ) = 0)

/-! ## Run-duration parsing and end date

The driver runs `d, h, m = re.split('[_:]', duration)` and
`end_date = state['time'] + timedelta(days=int(d), hours=int(h), minutes=int(m))`.
`re.split('[_:]', s)` cuts the string at every `_` or `:`; unpacking a list
whose length is not 3 raises `ValueError`, and `int(part)` raises
`ValueError` unless the part is (optionally sign-prefixed, optionally
whitespace-surrounded) decimal digits. -/

/-- Errors of the driver setup.  The script itself only ever raises Python's
`ValueError` here; `configurationError` is the `ConfigurationError` named by
the spec's error taxonomy, present in the type so that statements about it
can be made. -/
inductive DriverError
  | valueError
  | configurationError
deriving DecidableEq

/-- `re.split` with a single-character class: cut the character list at every
character satisfying `p`, keeping empty pieces. -/
def splitChars (p : Char → Bool) : List Char → List (List Char)
  | [] => [[]]
  | c :: cs =>
    if p c then [] :: splitChars p cs
    else
      match splitChars p cs with
      | [] => [[c]]
      | piece :: rest => (c :: piece) :: rest

/-- Parse a nonempty all-digit character list as a natural number. -/
def parseDigits (cs : List Char) : Option ℕ :=
  if cs ≠ [] ∧ cs.all Char.isDigit then
    some (cs.foldl (fun n c => 10 * n + (c.toNat - 48)) 0)
  else none

/-- Python `int(str)`: optional surrounding whitespace, optional sign, then
decimal digits; anything else raises `ValueError` (modelled as `none`). -/
def pyInt (cs : List Char) : Option ℤ :=
  let t := ((cs.dropWhile Char.isWhitespace).reverse.dropWhile Char.isWhitespace).reverse
  match t with
  | '+' :: rest => (parseDigits rest).map Int.ofNat
  | '-' :: rest => (parseDigits rest).map (fun n => -(n : ℤ))
  | other => (parseDigits other).map Int.ofNat

/-- Lines 95–96 of the driver: split the duration string on `_` and `:` and
convert the three pieces with `int`.  Both failure shapes (wrong number of
pieces, non-integer piece) raise Python `ValueError`. -/
def parseDuration (s : String) : Except DriverError (ℤ × ℤ × ℤ) :=
  match splitChars (fun c => c == '_' || c == ':') s.data with
  | [d, h, m] =>
    match pyInt d, pyInt h, pyInt m with
    | some a, some b, some c => Except.ok (a, b, c)
    | _, _, _ => Except.error DriverError.valueError
  | _ => Except.error DriverError.valueError

/-- Whether the duration string parses (the setup reaches the loop). -/
def durationParses (s : String) : Bool :=
  match parseDuration s with
  | Except.ok _ => true
  | Except.error _ => false

/-- `end_date = state['time'] + timedelta(days=d, hours=h, minutes=m)`, with
times in seconds. -/
def computeEndDate (t0 : ℚ) (dur : String) : Except DriverError ℚ :=
  match parseDuration dur with
  | Except.error e => Except.error e
  | Except.ok (d, h, m) =>
      Except.ok (t0 + ((d * 86400 + h * 3600 + m * 60 : ℤ) : ℚ))

/-! ## The integration loop, projected to the time variable

`while state['time'] <= end_date:` … `next_state['time'] = state['time'] + dt;
state = next_state`.  Every path through the loop body ends with this time
update, so the time evolution of the loop is exactly: while `t ≤ end_date`,
replace `t` by `t + dt`. -/

/-- The time projection of the driver's integration loop: iterate
`t ↦ t + dtq` while the loop condition `t ≤ endDate` holds, returning the
time of the final state (the first one for which the condition fails). -/
def runLoopTime (dtq endDate : ℚ) (hd : 0 < dtq) (t : ℚ) : ℚ :=
  if t ≤ endDate then runLoopTime dtq endDate hd (t + dtq) else t
termination_by (⌊(endDate - t) / dtq⌋ + 1).toNat
decreasing_by
  rename_i h
  have hx : (0 : ℚ) ≤ (endDate - t) / dtq := div_nonneg (by linarith) hd.le
  have h0 : (0 : ℤ) ≤ ⌊(endDate - t) / dtq⌋ := Int.floor_nonneg.mpr hx
  have heq : (endDate - (t + dtq)) / dtq = (endDate - t) / dtq - 1 := by
    field_simp
    ring
  rw [heq, Int.floor_sub_one]
  omega

/-- The whole driver run, projected to setup plus time evolution: parse the
duration and form `end_date`; on failure the error propagates and the loop
never starts, otherwise run the integration loop from `t0`. -/
def driverRun (t0 : ℚ) (dur : String) (dtq : ℚ) (hd : 0 < dtq) :
    Except DriverError ℚ :=
  match computeEndDate t0 dur with
  | Except.error e => Except.error e
  | Except.ok endDate => Except.ok (runLoopTime dtq endDate hd t0)

/-- The time of the `n`-th state of the run: line 119 of the driver sets
`next_state['time'] = state['time'] + dt` each iteration. -/
def nthStateTime (t0 : ℚ) : ℕ → ℚ
  | 0 => t0
  | n + 1 => nthStateTime t0 n + dtStep

/-! ## The Leapfrog stepper

The stepper itself (`sympl.Leapfrog`) is imported by the driver but its code
is not among the visible sources, so it is modelled from the spec. -/

/-- A scalar field on the model grid, indexed by flattened grid point. -/
def GridField : Type := ℕ → ℚ

/-- An atmospheric state at one time level, as the stepper sees it: the
vorticity at `t-1` and at `t`, and a simulation-time tag that is `none` when
no one has set it. -/
structure AtmoState where
  time : Option ℚ
  vortPrev : GridField
  vortCur : GridField

/-- Modelled from the spec: a tendency component is a pure function from a
state to a vorticity-tendency field together with diagnostic fields (already
re-keyed by its `TendencyInDiagnosticsWrapper`). -/
structure TendencyComponent where
  tendency : AtmoState → GridField
  diagnostics : AtmoState → List (String × GridField)

/-- Modelled from the spec: the fixed Robert–Asselin filter coefficient
(`e.g. 0.04`). -/
def raFilterCoeff : ℚ := 1 / 25

/-- Modelled from the spec (§4.4, `sympl.Leapfrog` is not among the visible
sources): evaluate every component against the state and sum the tendencies;
form `vorticity[t+1] = vorticity[t-1] + 2·dt·(summed tendency)`; apply the
Robert–Asselin filter to the `t`-level field, which becomes the new previous
level; merge the diagnostics; return `(diagnostics, nextState)` without
setting the next state's time. -/
def stepperStep (comps : List TendencyComponent) (s : AtmoState) (dtq : ℚ) :
    List (String × GridField) × AtmoState :=
  let tend : GridField := fun i => (comps.map (fun c => c.tendency s i)).sum
  let vortNext : GridField := fun i => s.vortPrev i + 2 * dtq * tend i
  let vortFiltered : GridField := fun i =>
    s.vortCur i + raFilterCoeff * (s.vortPrev i - 2 * s.vortCur i + vortNext i)
  ((comps.map (fun c => c.diagnostics s)).flatten,
   { time := none, vortPrev := vortFiltered, vortCur := vortNext })

/-- Line 119 of the driver: `next_state['time'] = state['time'] + dt`, where
`state` is the current state and `next_state` the one the stepper returned. -/
def driverAdvanceTime (s next : AtmoState) (dtq : ℚ) : AtmoState :=
  { next with time := s.time.map (· + dtq) }

/-- Number of iterations the integration loop performs from time `t`. -/
def loopIterCount (dtq endDate : ℚ) (hd : 0 < dtq) (t : ℚ) : ℕ :=
  if t ≤ endDate then loopIterCount dtq endDate hd (t + dtq) + 1 else 0
termination_by (⌊(endDate - t) / dtq⌋ + 1).toNat
decreasing_by
  rename_i h
  have hx : (0 : ℚ) ≤ (endDate - t) / dtq := div_nonneg (by linarith) hd.le
  have h0 : (0 : ℤ) ≤ ⌊(endDate - t) / dtq⌋ := Int.floor_nonneg.mpr hx
  have heq : (endDate - (t + dtq)) / dtq = (endDate - t) / dtq - 1 := by
    field_simp
    ring
  rw [heq, Int.floor_sub_one]
  omega

/-! ## Theorems -/

/-- Claim C8: the damping component is in the stepper's component list iff
forcing is enabled; diffusion is included independently under `diff_on`;
dynamics is always included. -/
theorem damping_included_iff_forcing_on (d f : Bool) :
    (Prog.damping ∈ buildPrognostics d f ↔ f = true)
    ∧ (Prog.forcing ∈ buildPrognostics d f ↔ f = true)
    ∧ (Prog.diffusion ∈ buildPrognostics d f ↔ d = true)
    ∧ Prog.dynamics ∈ buildPrognostics d f := by
  cases d <;> cases f <;> decide

/-- Claim C9, counterexample: with the output file present and `append_nc`
off, the driver's setup trace constructs the plot monitor strictly before it
removes the file, so the removal does not happen before every monitor
construction. -/
theorem remove_after_plot_monitor_cex :
    monitorSetup true false =
      [SetupEvent.constructPlotMonitor, SetupEvent.removeFile,
       SetupEvent.constructNCMonitor]
    ∧ (monitorSetup true false).indexOf SetupEvent.constructPlotMonitor
        < (monitorSetup true false).indexOf SetupEvent.removeFile := by
  decide

/-- Claim C9, amended: before the NetCDF monitor is constructed (though
after the plot monitor is), the driver removes the existing output file
exactly when the file exists and `append_nc` is off; otherwise no file is
removed. -/
theorem remove_file_iff_exists_and_no_append (fe ap : Bool) :
    (SetupEvent.removeFile ∈ monitorSetup fe ap ↔ fe = true ∧ ap = false)
    ∧ (SetupEvent.removeFile ∈ monitorSetup fe ap →
        (monitorSetup fe ap).indexOf SetupEvent.removeFile
          < (monitorSetup fe ap).indexOf SetupEvent.constructNCMonitor) := by
  cases fe <;> cases ap <;> decide

/-- Witness for `remove_file_iff_exists_and_no_append` at `fe = true`,
`ap = false`. -/
theorem remove_file_iff_exists_and_no_append_w :
    SetupEvent.removeFile ∈ monitorSetup true false
    ∧ (monitorSetup true false).indexOf SetupEvent.removeFile
        < (monitorSetup true false).indexOf SetupEvent.constructNCMonitor :=
  ⟨by decide, (remove_file_iff_exists_and_no_append true false).2 (by decide)⟩

/-- Claim C10: because the loop condition `state['time'] <= end_date` is
non-strict, the body runs once more when the current time equals the end
date, and the final state's time is `end_date + dt`, strictly past the end. -/
theorem loop_runs_once_past_end (dtq endDate : ℚ) (hd : 0 < dtq) :
    runLoopTime dtq endDate hd endDate = endDate + dtq
    ∧ endDate < endDate + dtq := by
  constructor
  · rw [runLoopTime, if_pos le_rfl, runLoopTime, if_neg (by linarith)]
  · linarith

/-- Witness for `loop_runs_once_past_end` at `dtq = 1`, `endDate = 0`. -/
theorem loop_runs_once_past_end_w :
    runLoopTime 1 0 one_pos 0 = 0 + 1 ∧ (0 : ℚ) < 0 + 1 :=
  loop_runs_once_past_end 1 0 one_pos

/-- Claim C5: for every positive timestep the integration loop terminates:
it exits with the loop condition false (time strictly past `end_date`) after
finitely many iterations, each of which advances time by exactly `dtq`. -/
theorem run_terminates (dtq endDate t : ℚ) (hd : 0 < dtq) :
    endDate < runLoopTime dtq endDate hd t
    ∧ runLoopTime dtq endDate hd t = t + loopIterCount dtq endDate hd t * dtq := by
  generalize hm : (⌊(endDate - t) / dtq⌋ + 1).toNat = m
  induction m generalizing t with
  | zero =>
    have hgt : ¬ t ≤ endDate := by
      intro hle
      have hx : (0 : ℚ) ≤ (endDate - t) / dtq := div_nonneg (by linarith) hd.le
      have h0 : (0 : ℤ) ≤ ⌊(endDate - t) / dtq⌋ := Int.floor_nonneg.mpr hx
      omega
    rw [runLoopTime, if_neg hgt, loopIterCount, if_neg hgt]
    exact ⟨lt_of_not_le hgt, by push_cast; ring⟩
  | succ m ih =>
    by_cases hle : t ≤ endDate
    · have hm' : (⌊(endDate - (t + dtq)) / dtq⌋ + 1).toNat = m := by
        have heq : (endDate - (t + dtq)) / dtq = (endDate - t) / dtq - 1 := by
          field_simp
          ring
        have hx : (0 : ℚ) ≤ (endDate - t) / dtq := div_nonneg (by linarith) hd.le
        have h0 : (0 : ℤ) ≤ ⌊(endDate - t) / dtq⌋ := Int.floor_nonneg.mpr hx
        rw [heq, Int.floor_sub_one]
        omega
      obtain ⟨h1, h2⟩ := ih (t + dtq) hm'
      rw [runLoopTime, if_pos hle, loopIterCount, if_pos hle]
      exact ⟨h1, by rw [h2]; push_cast; ring⟩
    · rw [runLoopTime, if_neg hle, loopIterCount, if_neg hle]
      exact ⟨lt_of_not_le hle, by push_cast; ring⟩

/-- Witness for `run_terminates` at `dtq = 1`, `endDate = 0`, `t = 0`. -/
theorem run_terminates_w :
    (0 : ℚ) < runLoopTime 1 0 one_pos 0
    ∧ runLoopTime 1 0 one_pos 0 = 0 + loopIterCount 1 0 one_pos 0 * 1 :=
  run_terminates 1 0 0 one_pos

/-- The time of the `n`-th state in closed form. -/
lemma nthStateTime_eq (t0 : ℚ) (n : ℕ) : nthStateTime t0 n = t0 + n * dtStep := by
  induction n with
  | zero => simp [nthStateTime]
  | succ n ih =>
    rw [nthStateTime, ih]
    push_cast
    ring

/-- Claim C6: across the states produced by the integration loop, the time
tag is monotonically non-decreasing; each successor's time is its
predecessor's plus the configured timestep, which is positive. -/
theorem state_time_monotone (t0 : ℚ) (m n : ℕ) (hmn : m ≤ n) :
    nthStateTime t0 m ≤ nthStateTime t0 n
    ∧ nthStateTime t0 (n + 1) = nthStateTime t0 n + dtStep
    ∧ 0 < dtStep := by
  refine ⟨?_, rfl, by norm_num [dtStep]⟩
  rw [nthStateTime_eq, nthStateTime_eq]
  have hmul : (m : ℚ) * dtStep ≤ (n : ℚ) * dtStep := by
    have hc : (m : ℚ) ≤ (n : ℚ) := by exact_mod_cast hmn
    have hpos : (0 : ℚ) ≤ dtStep := by norm_num [dtStep]
    exact mul_le_mul_of_nonneg_right hc hpos
  linarith

/-- Witness for `state_time_monotone` at `t0 = 0`, `m = 1`, `n = 2`. -/
theorem state_time_monotone_w :
    nthStateTime 0 1 ≤ nthStateTime 0 2
    ∧ nthStateTime 0 (2 + 1) = nthStateTime 0 2 + dtStep
    ∧ 0 < dtStep :=
  state_time_monotone 0 1 2 (by norm_num)

/-- `fhour` equals total elapsed seconds over 3600. -/
lemma elapsedHours_eq (d : ℕ) : elapsedHours d = (d : ℚ) / 3600 := by
  have key : 86400 * (d / 86400) + d % 86400 = d := Nat.div_add_mod d 86400
  have keyQ : (86400 : ℚ) * ((d / 86400 : ℕ) : ℚ) + ((d % 86400 : ℕ) : ℚ)
      = (d : ℚ) := by exact_mod_cast key
  unfold elapsedHours
  field_simp
  linarith

/-- The driver's float-modulo store test holds exactly when the elapsed
seconds are a whole multiple of `3600 * freq`. -/
lemma pyMod_eq_zero_iff (d freq : ℕ) (hf : 0 < freq) :
    pyMod ((d : ℚ) / 3600) (freq : ℚ) = 0 ↔ d % (3600 * freq) = 0 := by
  have hfQ : (0 : ℚ) < (freq : ℚ) := by exact_mod_cast hf
  constructor
  · intro h
    unfold pyMod at h
    have hz : (d : ℚ) / 3600 = (freq : ℚ) * (⌊(d : ℚ) / 3600 / (freq : ℚ)⌋ : ℤ) := by
      linarith
    set z : ℤ := ⌊(d : ℚ) / 3600 / (freq : ℚ)⌋ with hzdef
    have hz0 : 0 ≤ z := by
      apply Int.floor_nonneg.mpr
      positivity
    have hdz' : (d : ℤ) = (3600 * freq : ℕ) * z := by
      have hdz : (d : ℚ) = ((3600 * freq : ℕ) : ℚ) * (z : ℚ) := by
        push_cast
        field_simp at hz
        linarith
      exact_mod_cast hdz
    have hdn : d = 3600 * freq * z.toNat := by
      have hcast : (d : ℤ) = ((3600 * freq * z.toNat : ℕ) : ℤ) := by
        push_cast [Int.toNat_of_nonneg hz0]
        push_cast at hdz'
        linarith
      exact_mod_cast hcast
    rw [hdn]
    exact Nat.mul_mod_right _ _
  · intro h
    obtain ⟨k, hk⟩ := Nat.dvd_of_mod_eq_zero h
    subst hk
    unfold pyMod
    have h1 : ((3600 * freq * k : ℕ) : ℚ) / 3600 = (freq : ℚ) * (k : ℚ) := by
      push_cast
      field_simp
      ring
    have h2 : (freq : ℚ) * (k : ℚ) / (freq : ℚ) = ((k : ℕ) : ℚ) := by
      field_simp
    rw [h1, h2, Int.floor_natCast]
    push_cast
    ring

/-- Claim C2: the driver stores a netCDF record exactly when the elapsed
hours `fhour` satisfy `fhour % ncout_freq == 0` — equivalently when the
elapsed seconds are a whole multiple of `3600·freq`; with `ncout_freq = 6`,
elapsed hours 0, 6, 12 and 18 store, hours 3 and 9 do not, and a fractional
elapsed hour such as 3.25 is silently skipped (the decision is a total
boolean test, no error path exists). -/
theorem nc_store_cadence (d freq : ℕ) (hf : 0 < freq) :
    (storesThisStep d freq = true ↔ d % (3600 * freq) = 0)
    ∧ storesThisStep 0 6 = true
    ∧ storesThisStep 21600 6 = true
    ∧ storesThisStep 43200 6 = true
    ∧ storesThisStep 64800 6 = true
    ∧ storesThisStep 10800 6 = false
    ∧ storesThisStep 32400 6 = false
    ∧ storesThisStep 11700 6 = false := by
  refine ⟨?_, by norm_num [storesThisStep, pyMod, elapsedHours],
    by norm_num [storesThisStep, pyMod, elapsedHours],
    by norm_num [storesThisStep, pyMod, elapsedHours],
    by norm_num [storesThisStep, pyMod, elapsedHours],
    by norm_num [storesThisStep, pyMod, elapsedHours],
    by norm_num [storesThisStep, pyMod, elapsedHours],
    by norm_num [storesThisStep, pyMod, elapsedHours]⟩
  unfold storesThisStep
  rw [elapsedHours_eq]
  simp only [decide_eq_true_eq]
  exact pyMod_eq_zero_iff d freq hf

/-- Witness for `nc_store_cadence` at `d = 21600` (six hours), `freq = 6`. -/
theorem nc_store_cadence_w :
    (storesThisStep 21600 6 = true ↔ 21600 % (3600 * 6) = 0)
    ∧ storesThisStep 0 6 = true
    ∧ storesThisStep 21600 6 = true
    ∧ storesThisStep 43200 6 = true
    ∧ storesThisStep 64800 6 = true
    ∧ storesThisStep 10800 6 = false
    ∧ storesThisStep 32400 6 = false
    ∧ storesThisStep 11700 6 = false :=
  nc_store_cadence 21600 6 (by norm_num)

/-- Every failure of the duration parse is a Python `ValueError`. -/
lemma parseDuration_error_shape (s : String) :
    (∃ r, parseDuration s = Except.ok r)
    ∨ parseDuration s = Except.error DriverError.valueError := by
  unfold parseDuration
  split
  · split
    all_goals first
      | exact Or.inl ⟨_, rfl⟩
      | exact Or.inr rfl
  · exact Or.inr rfl

/-- Claim C7, counterexample: on the malformed duration string `"abc"` the
driver raises Python's `ValueError`, not the `ConfigurationError` the claim
names. -/
theorem duration_error_type_cex :
    parseDuration "abc" = Except.error DriverError.valueError
    ∧ parseDuration "abc" ≠ Except.error DriverError.configurationError := by
  refine ⟨rfl, fun h => ?_⟩
  have h' : (Except.error DriverError.valueError : Except DriverError (ℤ × ℤ × ℤ))
      = Except.error DriverError.configurationError := h
  exact absurd (Except.error.inj h') (by decide)

/-- Claim C7, amended: a run-duration string the driver fails to parse (one
that does not split on `_`/`:` into exactly three integer pieces) raises
`ValueError`, at setup: `end_date` is never formed and the integration loop
never starts. -/
theorem invalid_duration_setup_error (s : String) (t0 dtq : ℚ) (hd : 0 < dtq)
    (hbad : durationParses s = false) :
    parseDuration s = Except.error DriverError.valueError
    ∧ computeEndDate t0 s = Except.error DriverError.valueError
    ∧ driverRun t0 s dtq hd = Except.error DriverError.valueError := by
  have herr : parseDuration s = Except.error DriverError.valueError := by
    rcases parseDuration_error_shape s with ⟨r, hok⟩ | herr
    · exfalso
      unfold durationParses at hbad
      rw [hok] at hbad
      simp at hbad
    · exact herr
  have hend : computeEndDate t0 s = Except.error DriverError.valueError := by
    unfold computeEndDate
    rw [herr]
  refine ⟨herr, hend, ?_⟩
  unfold driverRun
  rw [hend]

/-- Witness for `invalid_duration_setup_error` on the malformed string
`"10_00"` (only two pieces). -/
theorem invalid_duration_setup_error_w :
    parseDuration "10_00" = Except.error DriverError.valueError
    ∧ computeEndDate 0 "10_00" = Except.error DriverError.valueError
    ∧ driverRun 0 "10_00" 1 one_pos = Except.error DriverError.valueError :=
  invalid_duration_setup_error "10_00" 0 1 one_pos (by decide)

/-- Claim C1: with vorticity known at `t-1` and `t` and a single configured
tendency component returning the constant tendency `T`, the stepper's next
state carries the unfiltered leapfrog vorticity
`vorticity[t-1] + 2·dt·T` at `t+1` (the Robert–Asselin filter touches only
the `t`-level field); exact in rational arithmetic. -/
theorem leapfrog_update_law (c : TendencyComponent) (T : GridField)
    (s : AtmoState) (dtq : ℚ) (hc : ∀ u, c.tendency u = T) (i : ℕ) :
    (stepperStep [c] s dtq).2.vortCur i = s.vortPrev i + 2 * dtq * T i := by
  simp [stepperStep, hc]

/-- Witness for `leapfrog_update_law`: constant tendency 5, previous
vorticity 2, timestep 2 give `2 + 2·2·5`. -/
theorem leapfrog_update_law_w :
    (stepperStep [⟨fun _ _ => 5, fun _ => []⟩]
        { time := none, vortPrev := fun _ => 2, vortCur := fun _ => 3 } 2).2.vortCur 0
      = 2 + 2 * 2 * 5 :=
  leapfrog_update_law ⟨fun _ _ => 5, fun _ => []⟩ (fun _ => 5)
    { time := none, vortPrev := fun _ => 2, vortCur := fun _ => 3 } 2
    (fun _ => rfl) 0

/-- Claim C3: the stepper returns `(diagnostics, nextState)` with the next
state's time left unset; the time of the next state is set only by the
driver, which assigns `state['time'] + dt` after storing. -/
theorem stepper_does_not_set_time (comps : List TendencyComponent)
    (s : AtmoState) (dtq t : ℚ) (ht : s.time = some t) :
    (stepperStep comps s dtq).2.time = none
    ∧ (driverAdvanceTime s (stepperStep comps s dtq).2 dtq).time
        = some (t + dtq) := by
  refine ⟨rfl, ?_⟩
  simp [driverAdvanceTime, ht]

/-- Witness for `stepper_does_not_set_time` with no components, time 1,
timestep 2. -/
theorem stepper_does_not_set_time_w :
    (stepperStep [] { time := some 1, vortPrev := fun _ => 0, vortCur := fun _ => 0 }
        2).2.time = none
    ∧ (driverAdvanceTime
        { time := some 1, vortPrev := fun _ => 0, vortCur := fun _ => 0 }
        (stepperStep []
          { time := some 1, vortPrev := fun _ => 0, vortCur := fun _ => 0 } 2).2
        2).time = some (1 + 2) :=
  stepper_does_not_set_time []
    { time := some 1, vortPrev := fun _ => 0, vortCur := fun _ => 0 } 2 1 rfl

end Barotropy
